import Mathlib

/-!
Verification development for the MPRIS presence-and-state synchronization
core of the spotify-controls GNOME Shell extension.

The repository contains three revisions of the same indicator class:
the current revision (the first document of src/unnamed/part_000, with
subscribe-before-fetch and a bounded metadata retry loop), an earlier
revision (the second document of src/unnamed/part_000) and the oldest
revision (src/extension.js), both of which fetch before subscribing and
have no retry loop.

The embedding models the mutable UI state touched by the D-Bus handlers
(the track label text, the play/pause icon, visibility, and the two
D-Bus handles) as an explicit record, and each handler as a pure state
transformer.  D-Bus variants that the handlers unpack are modeled by a
small value type, and JavaScript truthiness of a property lookup is
made explicit, since the handlers branch on it.
-/

namespace SpotifyControls

/-- The constant MPRIS_PLAYER_INTERFACE from the source. -/
def MPRIS_PLAYER_INTERFACE : String := "org.mpris.MediaPlayer2.Player"

/-- An unpacked D-Bus variant value as it reaches the handlers after
deep_unpack: the two shapes the code reads are strings (PlaybackStatus,
xesam:title) and arrays of strings (xesam:artist). -/
inductive MVal where
  | vStr (s : String)
  | vStrList (l : List String)
  deriving DecidableEq

/-- A metadata mapping (string keys to unpacked values), as built by the
loops over the unpacked Metadata variant in the source. -/
abbrev Metadata := List (String × MVal)

/-- Key lookup in a metadata mapping, modeling the JavaScript property
access metadata[key] (missing key yields undefined, modeled as none). -/
def lookupMeta : Metadata → String → Option MVal
  | [], _ => none
  | (k, v) :: rest, key => if k = key then some v else lookupMeta rest key

/-- JavaScript truthiness of a property access result: undefined is
falsy, an empty string is falsy, a non-empty string is truthy, and any
array (even an empty one) is truthy because arrays are objects. -/
def jsTruthy : Option MVal → Bool
  | none => false
  | some (MVal.vStr s) => s != ""
  | some (MVal.vStrList _) => true

/-- A whitespace character in the sense of JavaScript trim (the
characters that can occur here are plain ASCII). -/
def isJsSpace (c : Char) : Bool :=
  (c == ' ') || (c == '\t') || (c == '\n') || (c == '\r') || (c == '\x0b') || (c == '\x0c')

/-- The JavaScript String.prototype.trim call used by _updateTrackInfo:
strip leading and trailing whitespace. -/
def jsTrim (s : String) : String :=
  String.mk (((s.data.dropWhile isJsSpace).reverse.dropWhile isJsSpace).reverse)

/-- The mutable indicator state read and written by the D-Bus handlers:
trackLabel is this.trackLabel.text, playPauseIcon is
this.playPauseButton.child.icon_name, visible is the show()/hide()
state, and the two optional handles are this._signalSubscriptionId and
this._spotifyWatcherId (null modeled as none). -/
structure UIState where
  visible : Bool
  trackLabel : String
  playPauseIcon : String
  signalSubscriptionId : Option Nat
  spotifyWatcherId : Option Nat
  deriving DecidableEq

/-- The state after _init and _monitorSpotifyPresence: hidden, default
label, start icon, no signal subscription, watching the bus name. -/
def initialSnapshot (watcherId : Nat) : UIState :=
  { visible := false
  , trackLabel := "No Track Playing"
  , playPauseIcon := "media-playback-start-symbolic"
  , signalSubscriptionId := none
  , spotifyWatcherId := some watcherId }

/-- _updatePlayPauseIcon: picks the pause icon exactly when the status
string is Playing, the start icon otherwise. -/
def updatePlayPauseIcon (s : UIState) (playbackStatus : String) : UIState :=
  { s with playPauseIcon :=
      if playbackStatus = "Playing" then "media-playback-pause-symbolic"
      else "media-playback-start-symbolic" }

/-- The artist string computed by _updateTrackInfo in the current
revision (src/unnamed/part_000 lines 419 to 436): the first element of
the xesam:artist array when that array is non-empty and its first
element does not trim to the empty string, the fallback otherwise.  A
non-array value fails the Array.isArray check and also falls back. -/
def artistDisplay (m : Metadata) : String :=
  match lookupMeta m "xesam:artist" with
  | some (MVal.vStrList (a :: _)) => if jsTrim a != "" then a else "Unknown Artist"
  | _ => "Unknown Artist"

/-- The title string computed by _updateTrackInfo in the current
revision: the xesam:title string when it is truthy and does not trim to
the empty string, the fallback otherwise.  (The MPRIS protocol types
xesam:title as a string; an absent key is undefined, hence falsy.) -/
def titleDisplay (m : Metadata) : String :=
  match lookupMeta m "xesam:title" with
  | some (MVal.vStr t) => if jsTrim t != "" then t else "Unknown Title"
  | _ => "Unknown Title"

/-- The label text `artist - title` assembled by _updateTrackInfo. -/
def trackInfoText (m : Metadata) : String :=
  artistDisplay m ++ " - " ++ titleDisplay m

/-- _updateTrackInfo (current revision): overwrites the track label with
the text computed from the metadata mapping alone. -/
def updateTrackInfo (s : UIState) (m : Metadata) : UIState :=
  { s with trackLabel := trackInfoText m }

/-- The artist string computed by _updateTrackInfo in the oldest
revision (src/extension.js lines 315 to 330): any non-empty array
supplies its first element verbatim, with no emptiness check on it. -/
def artistDisplayExt (m : Metadata) : String :=
  match lookupMeta m "xesam:artist" with
  | some (MVal.vStrList (a :: _)) => a
  | _ => "Unknown Artist"

/-- The title string computed by _updateTrackInfo in the oldest
revision: the falsiness check `!title` replaces only an absent or empty
title with the fallback (no trimming). -/
def titleDisplayExt (m : Metadata) : String :=
  match lookupMeta m "xesam:title" with
  | some (MVal.vStr t) => if t != "" then t else "Unknown Title"
  | _ => "Unknown Title"

/-- _updateTrackInfo of the oldest revision (src/extension.js). -/
def updateTrackInfoExt (s : UIState) (m : Metadata) : UIState :=
  { s with trackLabel := artistDisplayExt m ++ " - " ++ titleDisplayExt m }

/-- The acceptance test of the retry loop, the condition
`metadata[xesam:artist] && metadata[xesam:title]` of
_retryFetchMetadata (src/unnamed/part_000 line 294), under JavaScript
truthiness. -/
def metadataAccept (m : Metadata) : Bool :=
  jsTruthy (lookupMeta m "xesam:artist") && jsTruthy (lookupMeta m "xesam:title")

/-- The outcome of one _getMetadata call: the promise resolves with a
mapping or rejects (timeout, player gone, malformed reply). -/
inductive FetchOutcome where
  | success (m : Metadata)
  | failure
  deriving DecidableEq

/-- Whether an outcome passes the acceptance test of the retry loop. -/
def outcomeAccepted : FetchOutcome → Bool
  | FetchOutcome.success m => metadataAccept m
  | FetchOutcome.failure => false

/-- One more loop iteration happened before the recursive result: the
attempt counter goes up, state and acceptance flag pass through. -/
def nextAttempt : UIState × Nat × Bool → UIState × Nat × Bool :=
  fun r => (r.1, r.2.1 + 1, r.2.2)

/-- _retryFetchMetadata (src/unnamed/part_000 lines 290 to 305): up to
fuel attempts (the source default is retries = 3); each iteration
awaits one _getMetadata outcome, consumed from the environment list
outs (a missing entry stands for a rejected promise, which the catch
block swallows).  An accepted mapping updates the track info and ends
the loop; any other outcome falls through to the next iteration after
the backoff delay.  Returns the final state, the number of fetch
attempts issued, and whether a mapping was accepted. -/
def retryFetchMetadata (s : UIState) (outs : List FetchOutcome) (fuel : Nat) :
    UIState × Nat × Bool :=
  match fuel with
  | 0 => (s, 0, false)
  | Nat.succ n =>
    match outs with
    | [] => nextAttempt (retryFetchMetadata s [] n)
    | FetchOutcome.success m :: rest =>
      if metadataAccept m then (updateTrackInfo s m, 1, true)
      else nextAttempt (retryFetchMetadata s rest n)
    | FetchOutcome.failure :: rest => nextAttempt (retryFetchMetadata s rest n)

/-- The decoded changedProps mapping of a PropertiesChanged signal as
the handler inspects it: presence of each of the two keys the code
reads, with the decoded payload. -/
structure ChangedProps where
  playbackStatus : Option String
  metadata : Option Metadata
  deriving DecidableEq

/-- _onPropertiesChanged (src/unnamed/part_000 lines 317 to 343):
signals from other interfaces are ignored; a present PlaybackStatus
entry updates the icon; a present Metadata entry updates the track
label; each key is handled independently. -/
def onPropertiesChanged (s : UIState) (iface : String) (cp : ChangedProps) : UIState :=
  if iface = MPRIS_PLAYER_INTERFACE then
    let s1 :=
      match cp.playbackStatus with
      | some status => updatePlayPauseIcon s status
      | none => s
    match cp.metadata with
    | some m => updateTrackInfo s1 m
    | none => s1
  else s

/-- The bus side effects issued by the teardown paths. -/
inductive BusEffect where
  | signalUnsubscribe (subId : Nat)
  | unwatchName (watcherId : Nat)
  deriving DecidableEq

/-- _onSpotifyVanished (src/unnamed/part_000 lines 492 to 500): hide
the indicator; if the subscription handle is set, unsubscribe and null
it.  Returns the new state and the bus effects issued.  Nothing else in
the state is touched. -/
def onSpotifyVanished (s : UIState) : UIState × List BusEffect :=
  let s1 : UIState := { s with visible := false }
  match s1.signalSubscriptionId with
  | some subId =>
    ({ s1 with signalSubscriptionId := none }, [BusEffect.signalUnsubscribe subId])
  | none => (s1, [])

/-- destroy (src/unnamed/part_000 lines 505 to 521): unwatch the bus
name if the watcher handle is set, then unsubscribe if the subscription
handle is set, nulling each handle that was used. -/
def destroy (s : UIState) : UIState × List BusEffect :=
  let p1 : UIState × List BusEffect :=
    match s.spotifyWatcherId with
    | some watcherId =>
      ({ s with spotifyWatcherId := none }, [BusEffect.unwatchName watcherId])
    | none => (s, [])
  match p1.1.signalSubscriptionId with
  | some subId =>
    ({ p1.1 with signalSubscriptionId := none }, p1.2 ++ [BusEffect.signalUnsubscribe subId])
  | none => (p1.1, p1.2)

/-- The events the event loop can deliver to the indicator: the name
watch callbacks, the resumption of an awaited property fetch with its
result, and an incoming PropertiesChanged signal. -/
inductive Event where
  | appeared (subId : Nat)
  | vanished
  | playbackStatusResult (status : String)
  | metadataResult (m : Metadata)
  | propertiesChanged (iface : String) (cp : ChangedProps)

/-- One event-loop step of the current revision.  appeared models the
synchronous prefix of _onSpotifyAppeared (show, subscribe);
playbackStatusResult models the resumption after await
_getPlaybackStatus, which calls _updatePlayPauseIcon unconditionally;
metadataResult models one iteration of _retryFetchMetadata resuming
with a fetched mapping and applying the acceptance test.  None of the
resumptions consults presence, visibility, or any generation tag before
mutating the state, exactly as in the source. -/
def stepEvent (s : UIState) : Event → UIState
  | Event.appeared subId => { s with visible := true, signalSubscriptionId := some subId }
  | Event.vanished => (onSpotifyVanished s).1
  | Event.playbackStatusResult status => updatePlayPauseIcon s status
  | Event.metadataResult m => if metadataAccept m then updateTrackInfo s m else s
  | Event.propertiesChanged iface cp => onPropertiesChanged s iface cp

/-- The externally visible actions of an appeared handler, in program
order, for stating ordering properties. -/
inductive DBusAction where
  | showIndicator
  | subscribeSignal
  | fetchPlaybackStatus
  | fetchMetadata
  deriving DecidableEq

/-- The action order of _onSpotifyAppeared in the current revision
(src/unnamed/part_000 lines 260 to 283): show(), signal_subscribe,
then await _getPlaybackStatus (issuing the status fetch), then
_retryFetchMetadata (issuing the first metadata fetch). -/
def onSpotifyAppearedActions : List DBusAction :=
  [ DBusAction.showIndicator
  , DBusAction.subscribeSignal
  , DBusAction.fetchPlaybackStatus
  , DBusAction.fetchMetadata ]

/-- The action order of _onSpotifyAppeared in the oldest revision
(src/extension.js lines 181 to 205): show(), await _getPlaybackStatus,
await _getMetadata, and only then signal_subscribe. -/
def onSpotifyAppearedActionsExt : List DBusAction :=
  [ DBusAction.showIndicator
  , DBusAction.fetchPlaybackStatus
  , DBusAction.fetchMetadata
  , DBusAction.subscribeSignal ]

/-- Whether the subscription is armed before any fetch is issued: the
first subscribe-or-fetch action in the trace is the subscribe. -/
def armedBeforeFetch : List DBusAction → Bool
  | [] => true
  | DBusAction.subscribeSignal :: _ => true
  | DBusAction.fetchPlaybackStatus :: _ => false
  | DBusAction.fetchMetadata :: _ => false
  | DBusAction.showIndicator :: rest => armedBeforeFetch rest

/-- The transport commands of the dispatcher. -/
inductive MPRISCommand where
  | previous
  | playPause
  | next
  deriving DecidableEq

/-- The 1:1 mapping of commands to MPRIS method names, as hard-coded at
the three button call sites. -/
def mprisMethodName : MPRISCommand → String
  | MPRISCommand.previous => "Previous"
  | MPRISCommand.playPause => "PlayPause"
  | MPRISCommand.next => "Next"

/-- The completion callback of _sendMPRISCommand
(src/unnamed/part_000 lines 465 to 486): call_finish may throw, but the
try/catch turns a failure into a log line and never rethrows; in the
current revision DEBUG is false, so the success path logs nothing.  The
result type Except String (List String) records whether an error
escapes the callback (it never does) alongside the log lines. -/
def sendMPRISCommandCallback (command : String) :
    Except String Unit → Except String (List String)
  | Except.ok _ => Except.ok []
  | Except.error _ => Except.ok ["Failed to send MPRIS command: " ++ command]

/-- _sendMPRISCommand: issues exactly one asynchronous method call named
by the command, leaves the indicator state untouched, and handles the
completion with the swallowing callback.  result is the eventual
outcome of the bus call. -/
def sendMPRISCommand (s : UIState) (command : MPRISCommand)
    (result : Except String Unit) :
    UIState × List String × Except String (List String) :=
  (s, [mprisMethodName command], sendMPRISCommandCallback (mprisMethodName command) result)

/-- A concrete live snapshot: visible, a track showing, subscribed. -/
def liveSnapshot : UIState :=
  { visible := true
  , trackLabel := "Radiohead - Karma Police"
  , playPauseIcon := "media-playback-pause-symbolic"
  , signalSubscriptionId := some 7
  , spotifyWatcherId := some 1 }

/-- A concrete metadata mapping with both fields populated. -/
def lateMetadata : Metadata :=
  [("xesam:artist", MVal.vStrList ["Muse"]), ("xesam:title", MVal.vStr "Hysteria")]

/-- A concrete mapping that carries a title but no artist key. -/
def titleOnlyMetadata : Metadata :=
  [("xesam:title", MVal.vStr "Hysteria")]

/-- A concrete mapping with an empty artist array and an empty title,
the "player registered but metadata not yet populated" shape. -/
def emptyFieldsMetadata : Metadata :=
  [("xesam:artist", MVal.vStrList []), ("xesam:title", MVal.vStr "")]

/-- Three fetch attempts that all come back with unpopulated fields. -/
def emptyOutcomes : List FetchOutcome :=
  [ FetchOutcome.success emptyFieldsMetadata
  , FetchOutcome.success emptyFieldsMetadata
  , FetchOutcome.success emptyFieldsMetadata ]

/-- A changedProps mapping carrying only a PlaybackStatus entry. -/
def pausedOnlyProps : ChangedProps :=
  { playbackStatus := some "Paused", metadata := none }

/-- The retry loop never issues more fetch attempts than its fuel. -/
theorem retry_attempts_le (fuel : Nat) :
    ∀ (s : UIState) (outs : List FetchOutcome),
      (retryFetchMetadata s outs fuel).2.1 ≤ fuel := by
  induction fuel with
  | zero => intro s outs; simp [retryFetchMetadata]
  | succ n ih =>
    intro s outs
    match outs with
    | [] =>
      have h := ih s []
      simp only [retryFetchMetadata, nextAttempt]
      omega
    | FetchOutcome.success m :: rest =>
      by_cases hm : metadataAccept m = true
      · simp [retryFetchMetadata, hm]
      · have h := ih s rest
        simp only [retryFetchMetadata, nextAttempt, hm, if_neg, Bool.false_eq_true,
          if_false]
        omega
    | FetchOutcome.failure :: rest =>
      have h := ih s rest
      simp only [retryFetchMetadata, nextAttempt]
      omega

/-- If no outcome passes the acceptance test, the loop runs all its
attempts, leaves the state untouched and accepts nothing. -/
theorem retry_all_rejected (fuel : Nat) :
    ∀ (s : UIState) (outs : List FetchOutcome),
      (∀ o ∈ outs, outcomeAccepted o = false) →
      retryFetchMetadata s outs fuel = (s, fuel, false) := by
  induction fuel with
  | zero => intro s outs _; simp [retryFetchMetadata]
  | succ n ih =>
    intro s outs h
    match outs with
    | [] =>
      have hr := ih s [] (by intro o ho; cases ho)
      simp [retryFetchMetadata, nextAttempt, hr]
    | FetchOutcome.success m :: rest =>
      have hm : metadataAccept m = false := h (FetchOutcome.success m) (by simp)
      have hr := ih s rest (by intro o ho; exact h o (List.mem_cons_of_mem _ ho))
      simp [retryFetchMetadata, nextAttempt, hm, hr]
    | FetchOutcome.failure :: rest =>
      have hr := ih s rest (by intro o ho; exact h o (List.mem_cons_of_mem _ ho))
      simp [retryFetchMetadata, nextAttempt, hr]

/-- Claim C4 counterexample: a fetched mapping that contains a
non-empty title but no artist key is NOT accepted by the retry loop;
with three such fetches the loop runs all three attempts and never
updates the state, although the claim says a mapping containing at
least one of the two fields is accepted and ends the loop. -/
theorem c4_accept_either_counterexample :
    jsTruthy (lookupMeta titleOnlyMetadata "xesam:title") = true ∧
    metadataAccept titleOnlyMetadata = false ∧
    retryFetchMetadata (initialSnapshot 1)
        [ FetchOutcome.success titleOnlyMetadata
        , FetchOutcome.success titleOnlyMetadata
        , FetchOutcome.success titleOnlyMetadata ] 3
      = (initialSnapshot 1, 3, false) := by
  refine ⟨rfl, rfl, rfl⟩

/-- Claim C4 (amended): a further retry attempt is issued whenever the
fetched mapping fails the truthiness test on EITHER field (a missing
artist key, or a missing or empty title); only a mapping whose artist
and title entries are both truthy is accepted, updates the track info
and ends the loop.  Acceptance is the conjunction of the two
truthiness tests. -/
theorem c4_retry_condition (s : UIState) (m : Metadata)
    (rest : List FetchOutcome) (n : Nat) :
    (metadataAccept m = true →
      retryFetchMetadata s (FetchOutcome.success m :: rest) (n + 1)
        = (updateTrackInfo s m, 1, true)) ∧
    (metadataAccept m = false →
      retryFetchMetadata s (FetchOutcome.success m :: rest) (n + 1)
        = nextAttempt (retryFetchMetadata s rest n)) ∧
    metadataAccept m
      = (jsTruthy (lookupMeta m "xesam:artist") &&
         jsTruthy (lookupMeta m "xesam:title")) := by
  refine ⟨?_, ?_, rfl⟩
  · intro hm; simp [retryFetchMetadata, hm]
  · intro hm; simp [retryFetchMetadata, hm]

/-- Witness for c4_retry_condition at a fully populated mapping. -/
theorem c4_retry_condition_witness :
    metadataAccept lateMetadata = true ∧
    retryFetchMetadata (initialSnapshot 1) [FetchOutcome.success lateMetadata] 3
      = (updateTrackInfo (initialSnapshot 1) lateMetadata, 1, true) :=
  ⟨rfl, (c4_retry_condition (initialSnapshot 1) lateMetadata [] 2).1 rfl⟩

/-- Claim C5: the retry loop with the source default of 3 retries
issues at most 3 fetch attempts for every sequence of outcomes, and
when every outcome fails the acceptance test it terminates after
exactly 3 attempts with the state unchanged and nothing accepted (no
error is raised: the loop is a total function and failed outcomes are
swallowed). -/
theorem c5_retry_bound (s : UIState) (outs : List FetchOutcome) :
    (retryFetchMetadata s outs 3).2.1 ≤ 3 ∧
    ((∀ o ∈ outs, outcomeAccepted o = false) →
      retryFetchMetadata s outs 3 = (s, 3, false)) :=
  ⟨retry_attempts_le 3 s outs, fun h => retry_all_rejected 3 s outs h⟩

/-- Witness for c5_retry_bound: every attempt returns a mapping with an
empty artist array and an empty title. -/
theorem c5_retry_bound_witness :
    (∀ o ∈ emptyOutcomes, outcomeAccepted o = false) ∧
    retryFetchMetadata (initialSnapshot 1) emptyOutcomes 3
      = (initialSnapshot 1, 3, false) :=
  ⟨by decide, (c5_retry_bound (initialSnapshot 1) emptyOutcomes).2 (by decide)⟩

/-- Claim C1 counterexample: a metadata fetch result that arrives after
the vanish event is NOT discarded.  From a live snapshot, after the
vanish event the label still reads the old track; when the in-flight
fetch then resolves with a populated mapping, the (hidden) snapshot is
mutated to the new track text.  No generation counter exists in the
state to drop it. -/
theorem c1_generation_discard_counterexample :
    (stepEvent liveSnapshot Event.vanished).trackLabel = "Radiohead - Karma Police" ∧
    (stepEvent (stepEvent liveSnapshot Event.vanished)
        (Event.metadataResult lateMetadata)).trackLabel = "Muse - Hysteria" ∧
    (stepEvent (stepEvent liveSnapshot Event.vanished)
        (Event.metadataResult lateMetadata)).visible = false := by
  refine ⟨rfl, rfl, rfl⟩

/-- Claim C1 (amended): the code has no generation tagging, so a late
result is applied rather than discarded: after the vanish event, a
resolving metadata fetch whose mapping passes the acceptance test
overwrites the track label of the now-hidden snapshot, and a resolving
PlaybackStatus fetch updates the play/pause icon, exactly as it would
have before the vanish. -/
theorem c1_late_result_applied (s : UIState) (m : Metadata) (status : String)
    (hm : metadataAccept m = true) :
    (stepEvent (stepEvent s Event.vanished) (Event.metadataResult m)).trackLabel
      = trackInfoText m ∧
    (stepEvent (stepEvent s Event.vanished) (Event.metadataResult m)).visible = false ∧
    (stepEvent (stepEvent s Event.vanished) (Event.playbackStatusResult status)).playPauseIcon
      = (updatePlayPauseIcon s status).playPauseIcon := by
  cases h : s.signalSubscriptionId <;>
    simp [stepEvent, onSpotifyVanished, h, hm, updateTrackInfo, updatePlayPauseIcon]

/-- Witness for c1_late_result_applied at the concrete live snapshot
and the concrete populated mapping. -/
theorem c1_late_result_applied_witness :
    metadataAccept lateMetadata = true ∧
    (stepEvent (stepEvent liveSnapshot Event.vanished)
        (Event.metadataResult lateMetadata)).trackLabel = trackInfoText lateMetadata :=
  ⟨rfl, (c1_late_result_applied liveSnapshot lateMetadata "Playing" rfl).1⟩

/-- Claim C2 counterexample: handling the vanish event from a live
snapshot does NOT reset the snapshot to the Idle default: the track
label and play/pause icon keep their prior content, so the resulting
state differs from the initial snapshot. -/
theorem c2_vanish_reset_counterexample :
    (onSpotifyVanished liveSnapshot).1.trackLabel = "Radiohead - Karma Police" ∧
    (onSpotifyVanished liveSnapshot).1.playPauseIcon = "media-playback-pause-symbolic" ∧
    (initialSnapshot 1).trackLabel = "No Track Playing" ∧
    (onSpotifyVanished liveSnapshot).1 ≠ initialSnapshot 1 := by
  refine ⟨rfl, rfl, rfl, by decide⟩

/-- Claim C2 (amended): the vanish handler hides the indicator and
clears the signal subscription handle, and changes nothing else: the
track label, the play/pause icon and the watcher handle all keep their
prior values, so the snapshot is not reset to the Idle default. -/
theorem c2_vanish_effect (s : UIState) :
    (onSpotifyVanished s).1.visible = false ∧
    (onSpotifyVanished s).1.signalSubscriptionId = none ∧
    (onSpotifyVanished s).1.trackLabel = s.trackLabel ∧
    (onSpotifyVanished s).1.playPauseIcon = s.playPauseIcon ∧
    (onSpotifyVanished s).1.spotifyWatcherId = s.spotifyWatcherId := by
  cases h : s.signalSubscriptionId <;> simp [onSpotifyVanished, h]

/-- Claim C3 counterexample: in the appeared handler of the oldest
revision (src/extension.js lines 181 to 205) the initial fetches are
issued while the subscription is not yet armed, so the ordering the
claim asserts for every appeared event fails there. -/
theorem c3_subscribe_first_counterexample :
    armedBeforeFetch onSpotifyAppearedActionsExt = false := rfl

/-- Claim C3 (amended): the appeared handler of the current revision
(src/unnamed/part_000 lines 260 to 283) arms the PropertiesChanged
subscription strictly before issuing the initial fetches, but the
appeared handler of the oldest revision (src/extension.js) issues both
initial fetches before arming the subscription. -/
theorem c3_subscribe_order :
    armedBeforeFetch onSpotifyAppearedActions = true ∧
    armedBeforeFetch onSpotifyAppearedActionsExt = false :=
  ⟨rfl, rfl⟩

/-- Claim C6 counterexample: in the current revision a whitespace-only
first artist element is a non-empty string, yet the displayed artist is
the fallback rather than that element; likewise a whitespace-only
title (which is neither absent nor empty) falls back. -/
theorem c6_artist_selection_counterexample :
    (" " : String) ≠ "" ∧
    artistDisplay [("xesam:artist", MVal.vStrList [" "])] = "Unknown Artist" ∧
    titleDisplay [("xesam:title", MVal.vStr " ")] = "Unknown Title" := by
  refine ⟨by decide, rfl, rfl⟩

/-- Claim C6 (amended): the displayed artist is the first element of
the xesam:artist sequence exactly when that element does not trim to
the empty string (later elements are ignored); an absent key, an empty
sequence, or a first element that is empty or whitespace-only falls
back to the artist fallback; the title likewise falls back when the
key is absent or its string trims to empty; and the label is assembled
from these two strings. -/
theorem c6_artist_title_normalization (s : UIState) (m : Metadata) :
    (∀ a rest, lookupMeta m "xesam:artist" = some (MVal.vStrList (a :: rest)) →
      artistDisplay m = if jsTrim a != "" then a else "Unknown Artist") ∧
    (lookupMeta m "xesam:artist" = none ∨
        lookupMeta m "xesam:artist" = some (MVal.vStrList []) →
      artistDisplay m = "Unknown Artist") ∧
    (∀ t, lookupMeta m "xesam:title" = some (MVal.vStr t) →
      titleDisplay m = if jsTrim t != "" then t else "Unknown Title") ∧
    (lookupMeta m "xesam:title" = none → titleDisplay m = "Unknown Title") ∧
    (updateTrackInfo s m).trackLabel = artistDisplay m ++ " - " ++ titleDisplay m := by
  refine ⟨?_, ?_, ?_, ?_, rfl⟩
  · intro a rest h; simp [artistDisplay, h]
  · intro h; rcases h with h | h <;> simp [artistDisplay, h]
  · intro t h; simp [titleDisplay, h]
  · intro h; simp [titleDisplay, h]

/-- Witness for c6_artist_title_normalization at a mapping whose artist
sequence has two elements: the first is displayed. -/
theorem c6_artist_title_normalization_witness :
    lookupMeta [("xesam:artist", MVal.vStrList ["A", "B"])] "xesam:artist"
      = some (MVal.vStrList ["A", "B"]) ∧
    artistDisplay [("xesam:artist", MVal.vStrList ["A", "B"])]
      = (if jsTrim "A" != "" then "A" else "Unknown Artist") :=
  ⟨rfl, (c6_artist_title_normalization (initialSnapshot 1)
      [("xesam:artist", MVal.vStrList ["A", "B"])]).1 "A" ["B"] rfl⟩

/-- Claim C7: PropertiesChanged updates merge field-by-field: a signal
whose changedProps lacks Metadata leaves the track label unchanged, and
one lacking PlaybackStatus leaves the play/pause icon unchanged, for
every prior snapshot and every source interface. -/
theorem c7_merge_frame (s : UIState) (iface : String) (cp : ChangedProps) :
    (cp.metadata = none →
      (onPropertiesChanged s iface cp).trackLabel = s.trackLabel) ∧
    (cp.playbackStatus = none →
      (onPropertiesChanged s iface cp).playPauseIcon = s.playPauseIcon) := by
  constructor
  · intro h
    by_cases hi : iface = MPRIS_PLAYER_INTERFACE
    · cases hp : cp.playbackStatus <;>
        simp [onPropertiesChanged, hi, h, hp, updatePlayPauseIcon]
    · simp [onPropertiesChanged, hi]
  · intro h
    by_cases hi : iface = MPRIS_PLAYER_INTERFACE
    · cases hm : cp.metadata <;>
        simp [onPropertiesChanged, hi, h, hm, updateTrackInfo]
    · simp [onPropertiesChanged, hi]

/-- Witness for c7_merge_frame: a PlaybackStatus-only signal against
the live snapshot leaves the track label untouched. -/
theorem c7_merge_frame_witness :
    pausedOnlyProps.metadata = none ∧
    (onPropertiesChanged liveSnapshot MPRIS_PLAYER_INTERFACE pausedOnlyProps).trackLabel
      = liveSnapshot.trackLabel :=
  ⟨rfl, (c7_merge_frame liveSnapshot MPRIS_PLAYER_INTERFACE pausedOnlyProps).1 rfl⟩

/-- Claim C8: teardown is idempotent: running the vanish handler right
after the vanish handler, or destroy right after destroy, issues no bus
effect the second time and leaves the state exactly as after the first
call, because the second call finds the handles already nulled. -/
theorem c8_teardown_idempotent (s : UIState) :
    (onSpotifyVanished (onSpotifyVanished s).1).2 = [] ∧
    (onSpotifyVanished (onSpotifyVanished s).1).1 = (onSpotifyVanished s).1 ∧
    (destroy (destroy s).1).2 = [] ∧
    (destroy (destroy s).1).1 = (destroy s).1 := by
  cases hsub : s.signalSubscriptionId <;> cases hw : s.spotifyWatcherId <;>
    simp [onSpotifyVanished, destroy, hsub, hw]

/-- Claim C9: dispatching a transport command leaves the snapshot
untouched, issues exactly one method call named by the command (no
retry), and never propagates an error to the caller, whatever the bus
call outcome is. -/
theorem c9_command_dispatch (s : UIState) (command : MPRISCommand)
    (result : Except String Unit) :
    (sendMPRISCommand s command result).1 = s ∧
    (sendMPRISCommand s command result).2.1 = [mprisMethodName command] ∧
    ∃ logs, (sendMPRISCommand s command result).2.2 = Except.ok logs := by
  refine ⟨rfl, rfl, ?_⟩
  cases result with
  | ok _ => exact ⟨[], rfl⟩
  | error e => exact ⟨["Failed to send MPRIS command: " ++ mprisMethodName command], rfl⟩

/-- Claim C10: within a single metadata update the artist/title pair is
replaced, never merged with the prior display: the new label depends
only on the mapping (identical for any two prior snapshots), a mapping
without an artist key overwrites any previously displayed artist with
the fallback, and a mapping without a title key overwrites the title
with its fallback. -/
theorem c10_metadata_replace (s t : UIState) (m : Metadata) :
    (updateTrackInfo s m).trackLabel = (updateTrackInfo t m).trackLabel ∧
    (lookupMeta m "xesam:artist" = none →
      (updateTrackInfo s m).trackLabel = "Unknown Artist" ++ " - " ++ titleDisplay m) ∧
    (lookupMeta m "xesam:title" = none →
      (updateTrackInfo s m).trackLabel = artistDisplay m ++ " - " ++ "Unknown Title") := by
  refine ⟨rfl, ?_, ?_⟩
  · intro h; simp [updateTrackInfo, trackInfoText, artistDisplay, h]
  · intro h; simp [updateTrackInfo, trackInfoText, titleDisplay, h]

/-- Witness for c10_metadata_replace: a title-only mapping applied over
the live snapshot (which displayed a real artist) forces the artist
fallback into the label. -/
theorem c10_metadata_replace_witness :
    liveSnapshot.trackLabel = "Radiohead - Karma Police" ∧
    lookupMeta titleOnlyMetadata "xesam:artist" = none ∧
    (updateTrackInfo liveSnapshot titleOnlyMetadata).trackLabel
      = "Unknown Artist" ++ " - " ++ titleDisplay titleOnlyMetadata :=
  ⟨rfl, rfl,
    (c10_metadata_replace liveSnapshot liveSnapshot titleOnlyMetadata).2.1 rfl⟩

end SpotifyControls
